import Mathlib

/-!
Shallow embedding of the ec2sensor traffic generators.

Source files:
* `src/scripts/scapy_traffic_generator.py` — frame-transport generator
  (class `TrafficGenerator`): builds whole IP frames with scapy and injects
  them with `send`/`sendp`.  Its session loops catch only `KeyboardInterrupt`.
* `src/scripts/simple_traffic_generator.py` — stream-transport generator
  (class `SimpleTrafficGenerator`): uses host sockets, best effort.

Modelling conventions:
* Wall-clock readings of `time.time()` are an external oracle
  `clock : Nat → Int`; reading 0 is the `start_time` assignment and reading
  `k+1` is the `while time.time() < end_time` check of iteration `k`.  Only
  the order of readings relative to `end_time = start_time + duration`
  matters to the code, so modelling the float clock by integers loses no
  observable behaviour: any pattern of loop-condition outcomes a real
  execution can produce is produced by some integer clock.
* The per-iteration nondeterminism of the environment (whether the network
  send raises, whether a `KeyboardInterrupt` arrives, whether a non-blocking
  connect/sendall succeeds) is an oracle `evt : Nat → _` giving the observed
  outcome of iteration `k`.
* Python `while` loops are modelled with explicit fuel; running out of fuel
  returns the state reached so far with exit kind `fuelOut`, so quantifying
  over all fuels also quantifies over every intermediate point of a session.
* `interval = 1.0 / pps` raises `ZeroDivisionError` in Python when
  `pps = 0`; the wrappers model that check explicitly before entering the
  loop.  The only property of `interval` the control flow depends on is its
  sign: `time.sleep(interval)` raises `ValueError` exactly when
  `interval < 0`, i.e. when `pps < 0`; the loops receive this sign as the
  flag `negSleep` and model where the `ValueError` lands (caught or not)
  according to the surrounding handlers.
* `print_stats` prints only when `self.start_time` is truthy, i.e.
  non-zero; snapshots are emitted only when the start reading is nonzero.
* The `stop_flag` threading event of `SimpleTrafficGenerator` is set only
  by the `KeyboardInterrupt` handlers, which already leave the loop, so the
  `not self.stop_flag.is_set()` conjunct of the loop conditions is always
  true when evaluated and is not modelled separately.
-/

/-- Running statistics of a generator instance: `self.packets_sent` and
`self.bytes_sent` (both initialised to 0 in `__init__`). -/
structure Stats where
  packets_sent : Nat
  bytes_sent : Nat
  deriving Repr, DecidableEq

/-- Protocol tag of one send. -/
inductive Proto where
  | http | dns | icmp | tcpSyn | udp | tcp
  deriving Repr, DecidableEq

/-- One counted send attempt: protocol, destination port, ICMP-style
sequence number (0 when not applicable) and byte length added to
`bytes_sent` for it. -/
structure SendEvt where
  proto : Proto
  dport : Nat
  seq : Nat
  len : Nat
  deriving Repr, DecidableEq

/-- How a session loop exited. -/
inductive RunExit where
  | completed
  | cancelled
  | pyError (msg : String)
  | fuelOut
  deriving Repr, DecidableEq

/-- Observable outcome of one generator run: final counters, the list of
counted send attempts in order, the final `print_stats` snapshot (`none` if
the final `print_stats` was skipped or printed nothing), the number of
completed `time.sleep` calls, the number of periodic snapshots, and the
exit kind. -/
structure RunResult where
  stats : Stats
  sends : List SendEvt
  finalSnap : Option Stats
  sleeps : Nat
  periodicSnaps : Nat
  exit : RunExit
  deriving Repr, DecidableEq

/-- Environment outcome of one iteration of a frame-transport (scapy) loop:
the `send`/`sendp` call succeeds; it raises a non-`KeyboardInterrupt`
exception; a `KeyboardInterrupt` arrives during the send (before the
counters are updated); or a `KeyboardInterrupt` arrives after the counters
are updated (e.g. during the pacing sleep). -/
inductive FrameIterEvt where
  | ok
  | sendFail
  | interruptEarly
  | interruptLate
  deriving Repr, DecidableEq

/-- Environment outcome of one iteration of a stream-transport (socket)
loop: `ok connOk sendOk` — the iteration body runs to completion, with the
non-blocking connect and the `sendall`/`sendto` succeeding or failing
silently as recorded (the code does not inspect these outcomes);
`innerFail` — an exception is raised before the counters are updated and
reaches the per-iteration handler (TCP/HTTP: broad `except Exception`;
UDP: `except OSError`); `interruptEarly`/`interruptLate` — a
`KeyboardInterrupt` arrives before/after the counters are updated. -/
inductive StreamIterEvt where
  | ok (connOk sendOk : Bool)
  | innerFail
  | interruptEarly
  | interruptLate
  deriving Repr, DecidableEq

/-- Holds (as `true`) for the outcomes in which the iteration body completes normally. -/
def StreamIterEvt.isOk : StreamIterEvt → Bool
  | .ok _ _ => true
  | _ => false

/-- Model of `print_stats` (both generators): prints a snapshot of the counters, but
only when `self.start_time` is truthy (non-zero). -/
def printStats (start : Int) (st : Stats) : Option Stats :=
  if start = 0 then none else some st

/-- Result of `interval = 1.0 / pps` with `pps = 0`: the
`ZeroDivisionError` propagates out of the generator method before its
session loop starts; nothing was sent, the counters are still 0, and the
final `print_stats` line is never reached. -/
def zeroDivResult : RunResult :=
  ⟨⟨0, 0⟩, [], none, 0, 0, .pyError "ZeroDivisionError"⟩

/-! ## Frame transport: `scapy_traffic_generator.py` -/

/-- The loop of `TrafficGenerator.generate_http_traffic` (lines 55-67).
Per iteration: `send(pkt)`, `packets_sent += 1`, `bytes_sent += len(pkt)`,
`time.sleep(interval)`, then a periodic snapshot every 100 packets.  Only
`KeyboardInterrupt` is caught (followed by the final `print_stats`); any
other exception from `send` or from `time.sleep` propagates out of the
method, skipping the final `print_stats`. -/
def scapyHttpLoop (pktLen : Nat) (negSleep : Bool) (start endTime : Int)
    (clock : Nat → Int) (evt : Nat → FrameIterEvt) :
    Nat → Nat → Stats → List SendEvt → Nat → Nat → RunResult
  | 0, _, st, sends, sl, ps => ⟨st, sends, none, sl, ps, .fuelOut⟩
  | fuel+1, k, st, sends, sl, ps =>
    if clock (k+1) < endTime then
      match evt k with
      | .interruptEarly => ⟨st, sends, printStats start st, sl, ps, .cancelled⟩
      | .sendFail => ⟨st, sends, none, sl, ps, .pyError "Exception"⟩
      | .ok =>
        let st' : Stats := ⟨st.packets_sent + 1, st.bytes_sent + pktLen⟩
        let sends' := sends ++ [⟨.http, 80, 0, pktLen⟩]
        if negSleep then
          ⟨st', sends', none, sl, ps, .pyError "ValueError"⟩
        else
          let ps' := if st'.packets_sent % 100 = 0 ∧ start ≠ 0 then ps + 1 else ps
          scapyHttpLoop pktLen negSleep start endTime clock evt fuel (k+1) st' sends' (sl+1) ps'
      | .interruptLate =>
        let st' : Stats := ⟨st.packets_sent + 1, st.bytes_sent + pktLen⟩
        ⟨st', sends ++ [⟨.http, 80, 0, pktLen⟩], printStats start st', sl, ps, .cancelled⟩
    else ⟨st, sends, printStats start st, sl, ps, .completed⟩

/-- Model of `TrafficGenerator.generate_http_traffic` (lines 43-67): records
`start_time`, builds the HTTP GET packet (its scapy on-wire length is the
parameter `pktLen`), computes `interval = 1.0 / pps` and
`end_time = start_time + duration`, then runs the loop. -/
def scapyHttp (pktLen : Nat) (duration pps : Int)
    (clock : Nat → Int) (evt : Nat → FrameIterEvt) (fuel : Nat) : RunResult :=
  if pps = 0 then zeroDivResult
  else
    let start := clock 0
    scapyHttpLoop pktLen (decide (pps < 0)) start (start + duration) clock evt
      fuel 0 ⟨0, 0⟩ [] 0 0

/-- Destination-port step of `generate_tcp_syn_flood` (line 111):
`port = (port % 65535) + 1`. -/
def nextPort (p : Nat) : Nat := p % 65535 + 1

/-- Destination port used by the `n`-th (0-based) SYN send: the sequence
starts at `port = 80` (line 103) and steps by `nextPort` after each send. -/
def synPort : Nat → Nat
  | 0 => 80
  | n+1 => nextPort (synPort n)

/-- The loop of `TrafficGenerator.generate_tcp_syn_flood` (lines 102-119).
Per iteration: build a SYN packet to the current `port`, `send`, update
counters, advance `port`, `time.sleep(interval)`, periodic snapshot every
100 packets.  Only `KeyboardInterrupt` is caught. -/
def scapySynLoop (pktLen : Nat) (negSleep : Bool) (start endTime : Int)
    (clock : Nat → Int) (evt : Nat → FrameIterEvt) :
    Nat → Nat → Nat → Stats → List SendEvt → Nat → Nat → RunResult
  | 0, _, _, st, sends, sl, ps => ⟨st, sends, none, sl, ps, .fuelOut⟩
  | fuel+1, k, port, st, sends, sl, ps =>
    if clock (k+1) < endTime then
      match evt k with
      | .interruptEarly => ⟨st, sends, printStats start st, sl, ps, .cancelled⟩
      | .sendFail => ⟨st, sends, none, sl, ps, .pyError "Exception"⟩
      | .ok =>
        let st' : Stats := ⟨st.packets_sent + 1, st.bytes_sent + pktLen⟩
        let sends' := sends ++ [⟨.tcpSyn, port, 0, pktLen⟩]
        if negSleep then
          ⟨st', sends', none, sl, ps, .pyError "ValueError"⟩
        else
          let ps' := if st'.packets_sent % 100 = 0 ∧ start ≠ 0 then ps + 1 else ps
          scapySynLoop pktLen negSleep start endTime clock evt fuel (k+1) (nextPort port) st' sends' (sl+1) ps'
      | .interruptLate =>
        let st' : Stats := ⟨st.packets_sent + 1, st.bytes_sent + pktLen⟩
        ⟨st', sends ++ [⟨.tcpSyn, port, 0, pktLen⟩], printStats start st', sl, ps, .cancelled⟩
    else ⟨st, sends, printStats start st, sl, ps, .completed⟩

/-- Model of `TrafficGenerator.generate_tcp_syn_flood` (lines 94-119). -/
def scapySyn (pktLen : Nat) (duration pps : Int)
    (clock : Nat → Int) (evt : Nat → FrameIterEvt) (fuel : Nat) : RunResult :=
  if pps = 0 then zeroDivResult
  else
    let start := clock 0
    scapySynLoop pktLen (decide (pps < 0)) start (start + duration) clock evt
      fuel 0 80 ⟨0, 0⟩ [] 0 0

/-- The loop of `TrafficGenerator.generate_icmp_traffic` (lines 129-148).
Per iteration: build an ICMP echo packet carrying the current `seq`
(layer-2 framed via `sendp` when both MAC addresses were supplied,
otherwise layer-3 via `send`; the on-wire lengths are the parameters
`l2Len`/`l3Len`), update counters, `seq += 1`, `time.sleep(interval)`,
periodic snapshot every 10 packets.  Only `KeyboardInterrupt` is caught. -/
def scapyIcmpLoop (l2Len l3Len : Nat) (useL2 negSleep : Bool) (start endTime : Int)
    (clock : Nat → Int) (evt : Nat → FrameIterEvt) :
    Nat → Nat → Nat → Stats → List SendEvt → Nat → Nat → RunResult
  | 0, _, _, st, sends, sl, ps => ⟨st, sends, none, sl, ps, .fuelOut⟩
  | fuel+1, k, seq, st, sends, sl, ps =>
    if clock (k+1) < endTime then
      let plen := if useL2 then l2Len else l3Len
      match evt k with
      | .interruptEarly => ⟨st, sends, printStats start st, sl, ps, .cancelled⟩
      | .sendFail => ⟨st, sends, none, sl, ps, .pyError "Exception"⟩
      | .ok =>
        let st' : Stats := ⟨st.packets_sent + 1, st.bytes_sent + plen⟩
        let sends' := sends ++ [⟨.icmp, 0, seq, plen⟩]
        if negSleep then
          ⟨st', sends', none, sl, ps, .pyError "ValueError"⟩
        else
          let ps' := if st'.packets_sent % 10 = 0 ∧ start ≠ 0 then ps + 1 else ps
          scapyIcmpLoop l2Len l3Len useL2 negSleep start endTime clock evt fuel (k+1) (seq+1) st' sends' (sl+1) ps'
      | .interruptLate =>
        let st' : Stats := ⟨st.packets_sent + 1, st.bytes_sent + plen⟩
        ⟨st', sends ++ [⟨.icmp, 0, seq, plen⟩], printStats start st', sl, ps, .cancelled⟩
    else ⟨st, sends, printStats start st, sl, ps, .completed⟩

/-- Model of `TrafficGenerator.generate_icmp_traffic` (lines 121-148); `seq` starts
at 0 (line 130). -/
def scapyIcmp (l2Len l3Len : Nat) (useL2 : Bool) (duration pps : Int)
    (clock : Nat → Int) (evt : Nat → FrameIterEvt) (fuel : Nat) : RunResult :=
  if pps = 0 then zeroDivResult
  else
    let start := clock 0
    scapyIcmpLoop l2Len l3Len useL2 (decide (pps < 0)) start (start + duration) clock evt
      fuel 0 0 ⟨0, 0⟩ [] 0 0

/-- The fixed rotation list of `generate_mixed_traffic` (line 161):
`packets = [http_pkt, dns_pkt, icmp_pkt]`. -/
def frameRotation : List Proto := [.http, .dns, .icmp]

/-- The send event of rotation slot `i` of the frame-transport mixed loop:
`pkt = packets[i % len(packets)]` (line 168).  `hlen`/`dlen`/`ilen` are the
scapy on-wire lengths of the three templates. -/
def frameMixedEvt (hlen dlen ilen i : Nat) : SendEvt :=
  match frameRotation.getD (i % 3) .http with
  | .http => ⟨.http, 80, 0, hlen⟩
  | .dns => ⟨.dns, 53, 0, dlen⟩
  | _ => ⟨.icmp, 0, 0, ilen⟩

/-- The loop of `TrafficGenerator.generate_mixed_traffic` (lines 165-180).
Per iteration: pick `packets[i % 3]`, `send`, update counters, `i += 1`,
`time.sleep(interval)`, periodic snapshot every 100 packets.  Only
`KeyboardInterrupt` is caught. -/
def scapyMixedLoop (hlen dlen ilen : Nat) (negSleep : Bool) (start endTime : Int)
    (clock : Nat → Int) (evt : Nat → FrameIterEvt) :
    Nat → Nat → Nat → Stats → List SendEvt → Nat → Nat → RunResult
  | 0, _, _, st, sends, sl, ps => ⟨st, sends, none, sl, ps, .fuelOut⟩
  | fuel+1, k, i, st, sends, sl, ps =>
    if clock (k+1) < endTime then
      let e := frameMixedEvt hlen dlen ilen i
      match evt k with
      | .interruptEarly => ⟨st, sends, printStats start st, sl, ps, .cancelled⟩
      | .sendFail => ⟨st, sends, none, sl, ps, .pyError "Exception"⟩
      | .ok =>
        let st' : Stats := ⟨st.packets_sent + 1, st.bytes_sent + e.len⟩
        let sends' := sends ++ [e]
        if negSleep then
          ⟨st', sends', none, sl, ps, .pyError "ValueError"⟩
        else
          let ps' := if st'.packets_sent % 100 = 0 ∧ start ≠ 0 then ps + 1 else ps
          scapyMixedLoop hlen dlen ilen negSleep start endTime clock evt fuel (k+1) (i+1) st' sends' (sl+1) ps'
      | .interruptLate =>
        let st' : Stats := ⟨st.packets_sent + 1, st.bytes_sent + e.len⟩
        ⟨st', sends ++ [e], printStats start st', sl, ps, .cancelled⟩
    else ⟨st, sends, printStats start st, sl, ps, .completed⟩

/-- Model of `TrafficGenerator.generate_mixed_traffic` (lines 150-180); the rotation
index `i` starts at 0 (line 166). -/
def scapyMixed (hlen dlen ilen : Nat) (duration pps : Int)
    (clock : Nat → Int) (evt : Nat → FrameIterEvt) (fuel : Nat) : RunResult :=
  if pps = 0 then zeroDivResult
  else
    let start := clock 0
    scapyMixedLoop hlen dlen ilen (decide (pps < 0)) start (start + duration) clock evt
      fuel 0 0 ⟨0, 0⟩ [] 0 0

/-! ## Stream transport: `simple_traffic_generator.py` -/

/-- The loop shared (line for line, up to payload and protocol) by
`SimpleTrafficGenerator.generate_tcp_traffic` (lines 50-88) and
`generate_http_traffic` (lines 140-180).  Per iteration, inside a broad
`try`: open a fresh non-blocking socket, attempt `connect` (non-blocking
errors passed over), attempt `sendall` (any error passed over),
`packets_sent += 1`, `bytes_sent += len(unit)`, close the socket, periodic
snapshot every 100 packets, `time.sleep(interval)`.  Any exception before
the counter update reaches `except Exception`, which performs the same two
counter increments and continues without sleeping.  A negative `interval`
makes `time.sleep` raise `ValueError`, which is caught by that same
handler — so the iteration's counters are incremented twice.  The outer
`try` catches only `KeyboardInterrupt`, then the final `print_stats`
always runs. -/
def simpleStreamLoop (proto : Proto) (tport unitLen : Nat) (negSleep : Bool) (start endTime : Int)
    (clock : Nat → Int) (evt : Nat → StreamIterEvt) :
    Nat → Nat → Stats → List SendEvt → Nat → Nat → RunResult
  | 0, _, st, sends, sl, ps => ⟨st, sends, none, sl, ps, .fuelOut⟩
  | fuel+1, k, st, sends, sl, ps =>
    if clock (k+1) < endTime then
      match evt k with
      | .interruptEarly => ⟨st, sends, printStats start st, sl, ps, .cancelled⟩
      | .innerFail =>
        let st' : Stats := ⟨st.packets_sent + 1, st.bytes_sent + unitLen⟩
        simpleStreamLoop proto tport unitLen negSleep start endTime clock evt fuel (k+1)
          st' (sends ++ [⟨proto, tport, 0, unitLen⟩]) sl ps
      | .ok _ _ =>
        let st' : Stats := ⟨st.packets_sent + 1, st.bytes_sent + unitLen⟩
        let sends' := sends ++ [⟨proto, tport, 0, unitLen⟩]
        let ps' := if st'.packets_sent % 100 = 0 ∧ start ≠ 0 then ps + 1 else ps
        if negSleep then
          let st'' : Stats := ⟨st'.packets_sent + 1, st'.bytes_sent + unitLen⟩
          simpleStreamLoop proto tport unitLen negSleep start endTime clock evt fuel (k+1)
            st'' (sends' ++ [⟨proto, tport, 0, unitLen⟩]) sl ps'
        else
          simpleStreamLoop proto tport unitLen negSleep start endTime clock evt fuel (k+1)
            st' sends' (sl+1) ps'
      | .interruptLate =>
        let st' : Stats := ⟨st.packets_sent + 1, st.bytes_sent + unitLen⟩
        let ps' := if st'.packets_sent % 100 = 0 ∧ start ≠ 0 then ps + 1 else ps
        ⟨st', sends ++ [⟨proto, tport, 0, unitLen⟩], printStats start st', sl, ps', .cancelled⟩
    else ⟨st, sends, printStats start st, sl, ps, .completed⟩

/-- Model of `SimpleTrafficGenerator.generate_tcp_traffic` (lines 40-88):
`payload = b"X" * payload_size`, so each counted attempt adds
`payload_size` bytes. -/
def simpleTcp (payload_size tport : Nat) (duration pps : Int)
    (clock : Nat → Int) (evt : Nat → StreamIterEvt) (fuel : Nat) : RunResult :=
  if pps = 0 then zeroDivResult
  else
    let start := clock 0
    simpleStreamLoop .tcp tport payload_size (decide (pps < 0)) start (start + duration) clock evt
      fuel 0 ⟨0, 0⟩ [] 0 0

/-- The fixed header text of the HTTP POST request built by
`generate_http_traffic` (lines 130-136), as a function of the target IP
and the payload size. -/
def httpHeaderText (ip : String) (n : Nat) : String :=
  "POST / HTTP/1.1\r\n" ++ "Host: " ++ ip ++ "\r\n" ++
    "Content-Length: " ++ Nat.repr n ++ "\r\n" ++ "Connection: close\r\n" ++ "\r\n"

/-- Value of `len(http_request)`: the encoded header followed by the `X`-filled body
of `payload_size` bytes.  The source applies `str.encode` (UTF-8), so the
byte length of the header is its UTF-8 size. -/
def httpRequestLen (ip : String) (n : Nat) : Nat :=
  (httpHeaderText ip n).utf8ByteSize + n

/-- Model of `SimpleTrafficGenerator.generate_http_traffic` (lines 122-180): same
loop as the TCP path, but each counted attempt adds the length of the whole
HTTP request — header plus body — to `bytes_sent` (line 163/174). -/
def simpleHttp (ip : String) (payload_size tport : Nat) (duration pps : Int)
    (clock : Nat → Int) (evt : Nat → StreamIterEvt) (fuel : Nat) : RunResult :=
  if pps = 0 then zeroDivResult
  else
    let start := clock 0
    simpleStreamLoop .http tport (httpRequestLen ip payload_size) (decide (pps < 0)) start
      (start + duration) clock evt fuel 0 ⟨0, 0⟩ [] 0 0

/-- The loop of `SimpleTrafficGenerator.generate_udp_traffic`
(lines 101-113).  Per iteration, inside a `try`: `sock.sendto(payload)`,
`packets_sent += 1`, `bytes_sent += len(payload)`, periodic snapshot every
100 packets, `time.sleep(interval)`.  An `OSError` from `sendto` is caught
by `except OSError` and merely logged: the counters are NOT updated and the
sleep is skipped, then the loop continues.  A `ValueError` from a negative
sleep is caught by neither handler, so it propagates out of the method,
skipping `sock.close()` and the final `print_stats`.  The outer `try`
catches only `KeyboardInterrupt`, then the final `print_stats` runs. -/
def simpleUdpLoop (tport unitLen : Nat) (negSleep : Bool) (start endTime : Int)
    (clock : Nat → Int) (evt : Nat → StreamIterEvt) :
    Nat → Nat → Stats → List SendEvt → Nat → Nat → RunResult
  | 0, _, st, sends, sl, ps => ⟨st, sends, none, sl, ps, .fuelOut⟩
  | fuel+1, k, st, sends, sl, ps =>
    if clock (k+1) < endTime then
      match evt k with
      | .interruptEarly => ⟨st, sends, printStats start st, sl, ps, .cancelled⟩
      | .innerFail =>
        simpleUdpLoop tport unitLen negSleep start endTime clock evt fuel (k+1) st sends sl ps
      | .ok _ _ =>
        let st' : Stats := ⟨st.packets_sent + 1, st.bytes_sent + unitLen⟩
        let sends' := sends ++ [⟨.udp, tport, 0, unitLen⟩]
        let ps' := if st'.packets_sent % 100 = 0 ∧ start ≠ 0 then ps + 1 else ps
        if negSleep then
          ⟨st', sends', none, sl, ps', .pyError "ValueError"⟩
        else
          simpleUdpLoop tport unitLen negSleep start endTime clock evt fuel (k+1) st' sends' (sl+1) ps'
      | .interruptLate =>
        let st' : Stats := ⟨st.packets_sent + 1, st.bytes_sent + unitLen⟩
        let ps' := if st'.packets_sent % 100 = 0 ∧ start ≠ 0 then ps + 1 else ps
        ⟨st', sends ++ [⟨.udp, tport, 0, unitLen⟩], printStats start st', sl, ps', .cancelled⟩
    else ⟨st, sends, printStats start st, sl, ps, .completed⟩

/-- Model of `SimpleTrafficGenerator.generate_udp_traffic` (lines 90-120): one UDP
socket for the whole session, `payload = b"X" * payload_size`. -/
def simpleUdp (payload_size tport : Nat) (duration pps : Int)
    (clock : Nat → Int) (evt : Nat → StreamIterEvt) (fuel : Nat) : RunResult :=
  if pps = 0 then zeroDivResult
  else
    let start := clock 0
    simpleUdpLoop tport payload_size (decide (pps < 0)) start (start + duration) clock evt
      fuel 0 ⟨0, 0⟩ [] 0 0

/-- The rotation of the stream-transport mixed loop (lines 197-217):
even `i` sends UDP, odd `i` sends TCP. -/
def streamRotation : List Proto := [.udp, .tcp]

/-- The send event of rotation slot `i` of the stream-transport mixed
loop. -/
def streamMixedEvt (tport unitLen i : Nat) : SendEvt :=
  ⟨streamRotation.getD (i % 2) .udp, tport, 0, unitLen⟩

/-- The loop of `SimpleTrafficGenerator.generate_mixed_traffic`
(lines 193-231).  Per iteration, inside a broad `try`: send UDP (shared
socket) when `i % 2 == 0`, else a fresh non-blocking TCP attempt; then
`packets_sent += 1`, `bytes_sent += len(payload)`, `i += 1`, periodic
snapshot every 100 packets, `time.sleep(interval)`.  Any exception before
the counter update (e.g. an `OSError` from `sendto`) reaches
`except Exception`, which increments both counters WITHOUT advancing `i`
and continues without sleeping.  A `ValueError` from a negative sleep is
caught by the same handler after `i` was already advanced, so it adds a
second pair of increments.  The outer `try` catches only
`KeyboardInterrupt`, then the final `print_stats` runs. -/
def simpleMixedLoop (tport unitLen : Nat) (negSleep : Bool) (start endTime : Int)
    (clock : Nat → Int) (evt : Nat → StreamIterEvt) :
    Nat → Nat → Nat → Stats → List SendEvt → Nat → Nat → RunResult
  | 0, _, _, st, sends, sl, ps => ⟨st, sends, none, sl, ps, .fuelOut⟩
  | fuel+1, k, i, st, sends, sl, ps =>
    if clock (k+1) < endTime then
      let e := streamMixedEvt tport unitLen i
      match evt k with
      | .interruptEarly => ⟨st, sends, printStats start st, sl, ps, .cancelled⟩
      | .innerFail =>
        let st' : Stats := ⟨st.packets_sent + 1, st.bytes_sent + unitLen⟩
        simpleMixedLoop tport unitLen negSleep start endTime clock evt fuel (k+1) i
          st' (sends ++ [e]) sl ps
      | .ok _ _ =>
        let st' : Stats := ⟨st.packets_sent + 1, st.bytes_sent + unitLen⟩
        let sends' := sends ++ [e]
        let ps' := if st'.packets_sent % 100 = 0 ∧ start ≠ 0 then ps + 1 else ps
        if negSleep then
          let st'' : Stats := ⟨st'.packets_sent + 1, st'.bytes_sent + unitLen⟩
          simpleMixedLoop tport unitLen negSleep start endTime clock evt fuel (k+1) (i+1)
            st'' (sends' ++ [e]) sl ps'
        else
          simpleMixedLoop tport unitLen negSleep start endTime clock evt fuel (k+1) (i+1)
            st' sends' (sl+1) ps'
      | .interruptLate =>
        let st' : Stats := ⟨st.packets_sent + 1, st.bytes_sent + unitLen⟩
        let ps' := if st'.packets_sent % 100 = 0 ∧ start ≠ 0 then ps + 1 else ps
        ⟨st', sends ++ [e], printStats start st', sl, ps', .cancelled⟩
    else ⟨st, sends, printStats start st, sl, ps, .completed⟩

/-- Model of `SimpleTrafficGenerator.generate_mixed_traffic` (lines 182-237); the
rotation index `i` starts at 0 (line 194). -/
def simpleMixed (payload_size tport : Nat) (duration pps : Int)
    (clock : Nat → Int) (evt : Nat → StreamIterEvt) (fuel : Nat) : RunResult :=
  if pps = 0 then zeroDivResult
  else
    let start := clock 0
    simpleMixedLoop tport payload_size (decide (pps < 0)) start (start + duration) clock evt
      fuel 0 0 ⟨0, 0⟩ [] 0 0

/-- A concrete clock for closed test runs: reading `r` is `r + 1`
(monotone, nonzero start, one time unit between readings). -/
def stdClock : Nat → Int := fun r => (r : Int) + 1

/-! ## Helper lemmas -/

theorem synPort_bounds : ∀ n, 1 ≤ synPort n ∧ synPort n ≤ 65535 := by
  intro n
  induction n with
  | zero => exact ⟨by decide, by decide⟩
  | succ n ih =>
    constructor
    · exact Nat.succ_le_succ (Nat.zero_le _)
    · have h : synPort n % 65535 < 65535 := Nat.mod_lt _ (by decide)
      show nextPort (synPort n) ≤ 65535
      unfold nextPort
      omega

theorem synPort_step (n : Nat) :
    synPort (n+1) = if synPort n = 65535 then 1 else synPort n + 1 := by
  by_cases h : synPort n = 65535
  · simp [synPort, nextPort, h]
  · have hlt : synPort n < 65535 := Nat.lt_of_le_of_ne (synPort_bounds n).2 h
    simp [synPort, nextPort, h, Nat.mod_eq_of_lt hlt]

theorem scapyHttpLoop_step_ok (pktLen : Nat) (start endTime : Int)
    (clock : Nat → Int) (evt : Nat → FrameIterEvt) (fuel k : Nat) (st : Stats)
    (sends : List SendEvt) (sl ps : Nat)
    (hc : clock (k+1) < endTime) (he : evt k = .ok) :
    scapyHttpLoop pktLen false start endTime clock evt (fuel+1) k st sends sl ps =
      scapyHttpLoop pktLen false start endTime clock evt fuel (k+1)
        ⟨st.packets_sent + 1, st.bytes_sent + pktLen⟩ (sends ++ [⟨.http, 80, 0, pktLen⟩]) (sl+1)
        (if (st.packets_sent + 1) % 100 = 0 ∧ start ≠ 0 then ps + 1 else ps) := by
  simp [scapyHttpLoop, hc, he]

theorem simpleUdpLoop_step_ok (tport u : Nat) (start endTime : Int)
    (clock : Nat → Int) (evt : Nat → StreamIterEvt) (fuel k : Nat) (st : Stats)
    (sends : List SendEvt) (sl ps : Nat) (b c : Bool)
    (hc : clock (k+1) < endTime) (he : evt k = .ok b c) :
    simpleUdpLoop tport u false start endTime clock evt (fuel+1) k st sends sl ps =
      simpleUdpLoop tport u false start endTime clock evt fuel (k+1)
        ⟨st.packets_sent + 1, st.bytes_sent + u⟩ (sends ++ [⟨.udp, tport, 0, u⟩]) (sl+1)
        (if (st.packets_sent + 1) % 100 = 0 ∧ start ≠ 0 then ps + 1 else ps) := by
  simp [simpleUdpLoop, hc, he]

theorem simpleStreamLoop_step_ok (proto : Proto) (tport u : Nat) (start endTime : Int)
    (clock : Nat → Int) (evt : Nat → StreamIterEvt) (fuel k : Nat) (st : Stats)
    (sends : List SendEvt) (sl ps : Nat) (b c : Bool)
    (hc : clock (k+1) < endTime) (he : evt k = .ok b c) :
    simpleStreamLoop proto tport u false start endTime clock evt (fuel+1) k st sends sl ps =
      simpleStreamLoop proto tport u false start endTime clock evt fuel (k+1)
        ⟨st.packets_sent + 1, st.bytes_sent + u⟩ (sends ++ [⟨proto, tport, 0, u⟩]) (sl+1)
        (if (st.packets_sent + 1) % 100 = 0 ∧ start ≠ 0 then ps + 1 else ps) := by
  simp [simpleStreamLoop, hc, he]

theorem scapySynLoop_sends (pktLen : Nat) (negSleep : Bool) (start endTime : Int)
    (clock : Nat → Int) (evt : Nat → FrameIterEvt) :
    ∀ fuel k n st sl ps, ∃ m,
      (scapySynLoop pktLen negSleep start endTime clock evt fuel k (synPort n) st
          ((List.range n).map (fun j => ⟨.tcpSyn, synPort j, 0, pktLen⟩)) sl ps).sends =
        (List.range m).map (fun j => ⟨.tcpSyn, synPort j, 0, pktLen⟩) := by
  intro fuel
  induction fuel with
  | zero => exact fun k n st sl ps => ⟨n, rfl⟩
  | succ fuel ih =>
    intro k n st sl ps
    by_cases hc : clock (k+1) < endTime
    · cases hevt : evt k with
      | interruptEarly => exact ⟨n, by simp [scapySynLoop, hc, hevt]⟩
      | sendFail => exact ⟨n, by simp [scapySynLoop, hc, hevt]⟩
      | interruptLate =>
        exact ⟨n+1, by simp [scapySynLoop, hc, hevt, List.range_succ]⟩
      | ok =>
        by_cases hneg : negSleep
        · exact ⟨n+1, by simp [scapySynLoop, hc, hevt, hneg, List.range_succ]⟩
        · obtain ⟨m, hm⟩ := ih (k+1) (n+1) ⟨st.packets_sent + 1, st.bytes_sent + pktLen⟩ (sl+1)
            (if (st.packets_sent + 1) % 100 = 0 ∧ start ≠ 0 then ps + 1 else ps)
          refine ⟨m, ?_⟩
          rw [List.range_succ, List.map_append] at hm
          simpa [scapySynLoop, hc, hevt, hneg] using hm
    · exact ⟨n, by simp [scapySynLoop, hc]⟩

theorem scapyIcmpLoop_sends (l2Len l3Len : Nat) (useL2 negSleep : Bool) (start endTime : Int)
    (clock : Nat → Int) (evt : Nat → FrameIterEvt) :
    ∀ fuel k n st sl ps, ∃ m,
      (scapyIcmpLoop l2Len l3Len useL2 negSleep start endTime clock evt fuel k n st
          ((List.range n).map (fun j => ⟨.icmp, 0, j, if useL2 then l2Len else l3Len⟩)) sl ps).sends =
        (List.range m).map (fun j => ⟨.icmp, 0, j, if useL2 then l2Len else l3Len⟩) := by
  intro fuel
  induction fuel with
  | zero => exact fun k n st sl ps => ⟨n, rfl⟩
  | succ fuel ih =>
    intro k n st sl ps
    by_cases hc : clock (k+1) < endTime
    · cases hevt : evt k with
      | interruptEarly => exact ⟨n, by simp [scapyIcmpLoop, hc, hevt]⟩
      | sendFail => exact ⟨n, by simp [scapyIcmpLoop, hc, hevt]⟩
      | interruptLate =>
        exact ⟨n+1, by simp [scapyIcmpLoop, hc, hevt, List.range_succ]⟩
      | ok =>
        by_cases hneg : negSleep
        · exact ⟨n+1, by simp [scapyIcmpLoop, hc, hevt, hneg, List.range_succ]⟩
        · obtain ⟨m, hm⟩ := ih (k+1) (n+1)
            ⟨st.packets_sent + 1, st.bytes_sent + if useL2 then l2Len else l3Len⟩ (sl+1)
            (if (st.packets_sent + 1) % 10 = 0 ∧ start ≠ 0 then ps + 1 else ps)
          refine ⟨m, ?_⟩
          rw [List.range_succ, List.map_append] at hm
          simpa [scapyIcmpLoop, hc, hevt, hneg] using hm
    · exact ⟨n, by simp [scapyIcmpLoop, hc]⟩

theorem scapyMixedLoop_sends (hlen dlen ilen : Nat) (negSleep : Bool) (start endTime : Int)
    (clock : Nat → Int) (evt : Nat → FrameIterEvt) :
    ∀ fuel k n st sl ps, ∃ m,
      (scapyMixedLoop hlen dlen ilen negSleep start endTime clock evt fuel k n st
          ((List.range n).map (frameMixedEvt hlen dlen ilen)) sl ps).sends =
        (List.range m).map (frameMixedEvt hlen dlen ilen) := by
  intro fuel
  induction fuel with
  | zero => exact fun k n st sl ps => ⟨n, rfl⟩
  | succ fuel ih =>
    intro k n st sl ps
    by_cases hc : clock (k+1) < endTime
    · cases hevt : evt k with
      | interruptEarly => exact ⟨n, by simp [scapyMixedLoop, hc, hevt]⟩
      | sendFail => exact ⟨n, by simp [scapyMixedLoop, hc, hevt]⟩
      | interruptLate =>
        exact ⟨n+1, by simp [scapyMixedLoop, hc, hevt, List.range_succ]⟩
      | ok =>
        by_cases hneg : negSleep
        · exact ⟨n+1, by simp [scapyMixedLoop, hc, hevt, hneg, List.range_succ]⟩
        · obtain ⟨m, hm⟩ := ih (k+1) (n+1)
            ⟨st.packets_sent + 1, st.bytes_sent + (frameMixedEvt hlen dlen ilen n).len⟩ (sl+1)
            (if (st.packets_sent + 1) % 100 = 0 ∧ start ≠ 0 then ps + 1 else ps)
          refine ⟨m, ?_⟩
          rw [List.range_succ, List.map_append] at hm
          simpa [scapyMixedLoop, hc, hevt, hneg] using hm
    · exact ⟨n, by simp [scapyMixedLoop, hc]⟩

theorem simpleMixedLoop_sends_ok (tport u : Nat) (start endTime : Int)
    (clock : Nat → Int) (evt : Nat → StreamIterEvt)
    (hok : ∀ j, (evt j).isOk = true) :
    ∀ fuel k n st sl ps, ∃ m,
      (simpleMixedLoop tport u false start endTime clock evt fuel k n st
          ((List.range n).map (streamMixedEvt tport u)) sl ps).sends =
        (List.range m).map (streamMixedEvt tport u) := by
  intro fuel
  induction fuel with
  | zero => exact fun k n st sl ps => ⟨n, rfl⟩
  | succ fuel ih =>
    intro k n st sl ps
    by_cases hc : clock (k+1) < endTime
    · cases hevt : evt k with
      | interruptEarly => exact absurd (hok k) (by simp [hevt, StreamIterEvt.isOk])
      | innerFail => exact absurd (hok k) (by simp [hevt, StreamIterEvt.isOk])
      | interruptLate => exact absurd (hok k) (by simp [hevt, StreamIterEvt.isOk])
      | ok b c =>
        obtain ⟨m, hm⟩ := ih (k+1) (n+1)
          ⟨st.packets_sent + 1, st.bytes_sent + u⟩ (sl+1)
          (if (st.packets_sent + 1) % 100 = 0 ∧ start ≠ 0 then ps + 1 else ps)
        refine ⟨m, ?_⟩
        rw [List.range_succ, List.map_append] at hm
        simpa [simpleMixedLoop, hc, hevt] using hm
    · exact ⟨n, by simp [simpleMixedLoop, hc]⟩

theorem scapyHttpLoop_run_ok (pktLen : Nat) (start endTime : Int)
    (clock : Nat → Int) (evt : Nat → FrameIterEvt) :
    ∀ N fuel k st sends sl ps,
      (∀ j, j < N → clock (k+1+j) < endTime) →
      (∀ j, j < N → evt (k+j) = .ok) →
      ∃ ps2,
        scapyHttpLoop pktLen false start endTime clock evt (N+fuel) k st sends sl ps =
          scapyHttpLoop pktLen false start endTime clock evt fuel (k+N)
            ⟨st.packets_sent + N, st.bytes_sent + N * pktLen⟩
            (sends ++ List.replicate N ⟨.http, 80, 0, pktLen⟩) (sl+N) ps2 := by
  intro N
  induction N with
  | zero =>
    intro fuel k st sends sl ps _ _
    exact ⟨ps, by simp⟩
  | succ N ih =>
    intro fuel k st sends sl ps hchk hok
    have h0 : clock (k+1) < endTime := by simpa using hchk 0 (Nat.succ_pos N)
    have he : evt k = .ok := by simpa using hok 0 (Nat.succ_pos N)
    have hstep := scapyHttpLoop_step_ok pktLen start endTime clock evt (N+fuel) k st sends sl ps h0 he
    obtain ⟨ps2, hm⟩ := ih fuel (k+1) ⟨st.packets_sent + 1, st.bytes_sent + pktLen⟩
      (sends ++ [⟨.http, 80, 0, pktLen⟩]) (sl+1)
      (if (st.packets_sent + 1) % 100 = 0 ∧ start ≠ 0 then ps + 1 else ps)
      (fun j hj => by
        have h := hchk (j+1) (by omega)
        have e : k+1+(j+1) = k+1+1+j := by omega
        rwa [e] at h)
      (fun j hj => by
        have h := hok (j+1) (by omega)
        have e : k+(j+1) = k+1+j := by omega
        rwa [e] at h)
    refine ⟨ps2, ?_⟩
    have hfuel : N + 1 + fuel = N + fuel + 1 := by omega
    rw [hfuel, hstep, hm]
    have e1 : k + (N+1) = k+1+N := by omega
    have e2 : st.packets_sent + (N+1) = st.packets_sent + 1 + N := by omega
    have e3 : st.bytes_sent + (N+1) * pktLen = st.bytes_sent + pktLen + N * pktLen := by ring
    have e4 : sends ++ List.replicate (N+1) (⟨.http, 80, 0, pktLen⟩ : SendEvt) =
        (sends ++ [⟨.http, 80, 0, pktLen⟩]) ++ List.replicate N ⟨.http, 80, 0, pktLen⟩ := by
      simp [List.replicate_succ]
    have e5 : sl + (N+1) = sl + 1 + N := by omega
    rw [e1, e2, e3, e4, e5]

theorem simpleUdpLoop_run_ok (tport u : Nat) (start endTime : Int)
    (clock : Nat → Int) (evt : Nat → StreamIterEvt) :
    ∀ N fuel k st sends sl ps,
      (∀ j, j < N → clock (k+1+j) < endTime) →
      (∀ j, j < N → (evt (k+j)).isOk = true) →
      ∃ ps2,
        simpleUdpLoop tport u false start endTime clock evt (N+fuel) k st sends sl ps =
          simpleUdpLoop tport u false start endTime clock evt fuel (k+N)
            ⟨st.packets_sent + N, st.bytes_sent + N * u⟩
            (sends ++ List.replicate N ⟨.udp, tport, 0, u⟩) (sl+N) ps2 := by
  intro N
  induction N with
  | zero =>
    intro fuel k st sends sl ps _ _
    exact ⟨ps, by simp⟩
  | succ N ih =>
    intro fuel k st sends sl ps hchk hok
    have h0 : clock (k+1) < endTime := by simpa using hchk 0 (Nat.succ_pos N)
    have he0 : (evt k).isOk = true := by simpa using hok 0 (Nat.succ_pos N)
    obtain ⟨b, c, he⟩ : ∃ b c, evt k = .ok b c := by
      cases h : evt k <;> simp [h, StreamIterEvt.isOk] at he0 ⊢
    have hstep := simpleUdpLoop_step_ok tport u start endTime clock evt (N+fuel) k st sends sl ps b c h0 he
    obtain ⟨ps2, hm⟩ := ih fuel (k+1) ⟨st.packets_sent + 1, st.bytes_sent + u⟩
      (sends ++ [⟨.udp, tport, 0, u⟩]) (sl+1)
      (if (st.packets_sent + 1) % 100 = 0 ∧ start ≠ 0 then ps + 1 else ps)
      (fun j hj => by
        have h := hchk (j+1) (by omega)
        have e : k+1+(j+1) = k+1+1+j := by omega
        rwa [e] at h)
      (fun j hj => by
        have h := hok (j+1) (by omega)
        have e : k+(j+1) = k+1+j := by omega
        rwa [e] at h)
    refine ⟨ps2, ?_⟩
    have hfuel : N + 1 + fuel = N + fuel + 1 := by omega
    rw [hfuel, hstep, hm]
    have e1 : k + (N+1) = k+1+N := by omega
    have e2 : st.packets_sent + (N+1) = st.packets_sent + 1 + N := by omega
    have e3 : st.bytes_sent + (N+1) * u = st.bytes_sent + u + N * u := by ring
    have e4 : sends ++ List.replicate (N+1) (⟨.udp, tport, 0, u⟩ : SendEvt) =
        (sends ++ [⟨.udp, tport, 0, u⟩]) ++ List.replicate N ⟨.udp, tport, 0, u⟩ := by
      simp [List.replicate_succ]
    have e5 : sl + (N+1) = sl + 1 + N := by omega
    rw [e1, e2, e3, e4, e5]

theorem simpleStreamLoop_run_ok (proto : Proto) (tport u : Nat) (start endTime : Int)
    (clock : Nat → Int) (evt : Nat → StreamIterEvt) :
    ∀ N fuel k st sends sl ps,
      (∀ j, j < N → clock (k+1+j) < endTime) →
      (∀ j, j < N → (evt (k+j)).isOk = true) →
      ∃ ps2,
        simpleStreamLoop proto tport u false start endTime clock evt (N+fuel) k st sends sl ps =
          simpleStreamLoop proto tport u false start endTime clock evt fuel (k+N)
            ⟨st.packets_sent + N, st.bytes_sent + N * u⟩
            (sends ++ List.replicate N ⟨proto, tport, 0, u⟩) (sl+N) ps2 := by
  intro N
  induction N with
  | zero =>
    intro fuel k st sends sl ps _ _
    exact ⟨ps, by simp⟩
  | succ N ih =>
    intro fuel k st sends sl ps hchk hok
    have h0 : clock (k+1) < endTime := by simpa using hchk 0 (Nat.succ_pos N)
    have he0 : (evt k).isOk = true := by simpa using hok 0 (Nat.succ_pos N)
    obtain ⟨b, c, he⟩ : ∃ b c, evt k = .ok b c := by
      cases h : evt k <;> simp [h, StreamIterEvt.isOk] at he0 ⊢
    have hstep := simpleStreamLoop_step_ok proto tport u start endTime clock evt (N+fuel) k st sends sl ps b c h0 he
    obtain ⟨ps2, hm⟩ := ih fuel (k+1) ⟨st.packets_sent + 1, st.bytes_sent + u⟩
      (sends ++ [⟨proto, tport, 0, u⟩]) (sl+1)
      (if (st.packets_sent + 1) % 100 = 0 ∧ start ≠ 0 then ps + 1 else ps)
      (fun j hj => by
        have h := hchk (j+1) (by omega)
        have e : k+1+(j+1) = k+1+1+j := by omega
        rwa [e] at h)
      (fun j hj => by
        have h := hok (j+1) (by omega)
        have e : k+(j+1) = k+1+j := by omega
        rwa [e] at h)
    refine ⟨ps2, ?_⟩
    have hfuel : N + 1 + fuel = N + fuel + 1 := by omega
    rw [hfuel, hstep, hm]
    have e1 : k + (N+1) = k+1+N := by omega
    have e2 : st.packets_sent + (N+1) = st.packets_sent + 1 + N := by omega
    have e3 : st.bytes_sent + (N+1) * u = st.bytes_sent + u + N * u := by ring
    have e4 : sends ++ List.replicate (N+1) (⟨proto, tport, 0, u⟩ : SendEvt) =
        (sends ++ [⟨proto, tport, 0, u⟩]) ++ List.replicate N ⟨proto, tport, 0, u⟩ := by
      simp [List.replicate_succ]
    have e5 : sl + (N+1) = sl + 1 + N := by omega
    rw [e1, e2, e3, e4, e5]

theorem simpleStreamLoop_evt_ok_irrel (proto : Proto) (tport u : Nat) (negSleep : Bool)
    (start endTime : Int) (clock : Nat → Int) (evt evt2 : Nat → StreamIterEvt)
    (hok : ∀ j, (evt j).isOk = true) (hok2 : ∀ j, (evt2 j).isOk = true) :
    ∀ fuel k st sends sl ps,
      simpleStreamLoop proto tport u negSleep start endTime clock evt fuel k st sends sl ps =
        simpleStreamLoop proto tport u negSleep start endTime clock evt2 fuel k st sends sl ps := by
  intro fuel
  induction fuel with
  | zero => intro k st sends sl ps; rfl
  | succ fuel ih =>
    intro k st sends sl ps
    obtain ⟨b, c, he⟩ : ∃ b c, evt k = .ok b c := by
      have h0 := hok k
      cases h : evt k <;> simp [h, StreamIterEvt.isOk] at h0 ⊢
    obtain ⟨b2, c2, he2⟩ : ∃ b c, evt2 k = .ok b c := by
      have h0 := hok2 k
      cases h : evt2 k <;> simp [h, StreamIterEvt.isOk] at h0 ⊢
    by_cases hc : clock (k+1) < endTime
    · simp only [simpleStreamLoop, hc, if_true, he, he2]
      split
      · exact ih _ _ _ _ _
      · exact ih _ _ _ _ _
    · simp [simpleStreamLoop, hc]

theorem scapyHttpLoop_finalSnap (pktLen : Nat) (negSleep : Bool) (start endTime : Int)
    (clock : Nat → Int) (evt : Nat → FrameIterEvt) (hstart : start ≠ 0) :
    ∀ fuel k st sends sl ps,
      ((scapyHttpLoop pktLen negSleep start endTime clock evt fuel k st sends sl ps).exit = .completed ∨
        (scapyHttpLoop pktLen negSleep start endTime clock evt fuel k st sends sl ps).exit = .cancelled) →
      (scapyHttpLoop pktLen negSleep start endTime clock evt fuel k st sends sl ps).finalSnap =
        some (scapyHttpLoop pktLen negSleep start endTime clock evt fuel k st sends sl ps).stats := by
  intro fuel
  induction fuel with
  | zero => intro k st sends sl ps h; simp [scapyHttpLoop] at h
  | succ fuel ih =>
    intro k st sends sl ps h
    by_cases hc : clock (k+1) < endTime
    · cases hevt : evt k with
      | interruptEarly => simp [scapyHttpLoop, hc, hevt, printStats, hstart]
      | sendFail => simp [scapyHttpLoop, hc, hevt] at h
      | interruptLate => simp [scapyHttpLoop, hc, hevt, printStats, hstart]
      | ok =>
        simp only [scapyHttpLoop, hc, if_true, hevt] at h ⊢
        by_cases hneg : negSleep = true
        · rw [if_pos hneg] at h
          simp at h
        · rw [if_neg hneg] at h ⊢
          exact ih _ _ _ _ _ h
    · simp [scapyHttpLoop, hc, printStats, hstart]

theorem simpleUdpLoop_finalSnap (tport u : Nat) (negSleep : Bool) (start endTime : Int)
    (clock : Nat → Int) (evt : Nat → StreamIterEvt) (hstart : start ≠ 0) :
    ∀ fuel k st sends sl ps,
      ((simpleUdpLoop tport u negSleep start endTime clock evt fuel k st sends sl ps).exit = .completed ∨
        (simpleUdpLoop tport u negSleep start endTime clock evt fuel k st sends sl ps).exit = .cancelled) →
      (simpleUdpLoop tport u negSleep start endTime clock evt fuel k st sends sl ps).finalSnap =
        some (simpleUdpLoop tport u negSleep start endTime clock evt fuel k st sends sl ps).stats := by
  intro fuel
  induction fuel with
  | zero => intro k st sends sl ps h; simp [simpleUdpLoop] at h
  | succ fuel ih =>
    intro k st sends sl ps h
    by_cases hc : clock (k+1) < endTime
    · cases hevt : evt k with
      | interruptEarly => simp [simpleUdpLoop, hc, hevt, printStats, hstart]
      | innerFail =>
        simp only [simpleUdpLoop, hc, if_true, hevt] at h ⊢
        exact ih _ _ _ _ _ h
      | interruptLate => simp [simpleUdpLoop, hc, hevt, printStats, hstart]
      | ok b c =>
        simp only [simpleUdpLoop, hc, if_true, hevt] at h ⊢
        by_cases hneg : negSleep = true
        · rw [if_pos hneg] at h
          simp at h
        · rw [if_neg hneg] at h ⊢
          exact ih _ _ _ _ _ h
    · simp [simpleUdpLoop, hc, printStats, hstart]

theorem simpleStreamLoop_inv (proto : Proto) (tport u : Nat) (negSleep : Bool)
    (start endTime : Int) (clock : Nat → Int) (evt : Nat → StreamIterEvt) :
    ∀ fuel k st sends sl ps, st.bytes_sent = st.packets_sent * u →
      (simpleStreamLoop proto tport u negSleep start endTime clock evt fuel k st sends sl ps).stats.bytes_sent =
        (simpleStreamLoop proto tport u negSleep start endTime clock evt fuel k st sends sl ps).stats.packets_sent * u := by
  intro fuel
  induction fuel with
  | zero => intro k st sends sl ps h; simpa [simpleStreamLoop] using h
  | succ fuel ih =>
    intro k st sends sl ps h
    by_cases hc : clock (k+1) < endTime
    · cases hevt : evt k with
      | interruptEarly => simpa [simpleStreamLoop, hc, hevt] using h
      | innerFail =>
        simp only [simpleStreamLoop, hc, if_true, hevt]
        exact ih _ _ _ _ _ (by show st.bytes_sent + u = (st.packets_sent + 1) * u; rw [h]; ring)
      | interruptLate =>
        have hgoal : st.bytes_sent + u = (st.packets_sent + 1) * u := by rw [h]; ring
        simpa [simpleStreamLoop, hc, hevt] using hgoal
      | ok b c =>
        simp only [simpleStreamLoop, hc, if_true, hevt]
        by_cases hneg : negSleep = true
        · rw [if_pos hneg]
          exact ih _ _ _ _ _
            (by show st.bytes_sent + u + u = (st.packets_sent + 1 + 1) * u; rw [h]; ring)
        · rw [if_neg hneg]
          exact ih _ _ _ _ _ (by show st.bytes_sent + u = (st.packets_sent + 1) * u; rw [h]; ring)
    · simpa [simpleStreamLoop, hc] using h

theorem simpleUdpLoop_inv (tport u : Nat) (negSleep : Bool)
    (start endTime : Int) (clock : Nat → Int) (evt : Nat → StreamIterEvt) :
    ∀ fuel k st sends sl ps, st.bytes_sent = st.packets_sent * u →
      (simpleUdpLoop tport u negSleep start endTime clock evt fuel k st sends sl ps).stats.bytes_sent =
        (simpleUdpLoop tport u negSleep start endTime clock evt fuel k st sends sl ps).stats.packets_sent * u := by
  intro fuel
  induction fuel with
  | zero => intro k st sends sl ps h; simpa [simpleUdpLoop] using h
  | succ fuel ih =>
    intro k st sends sl ps h
    by_cases hc : clock (k+1) < endTime
    · cases hevt : evt k with
      | interruptEarly => simpa [simpleUdpLoop, hc, hevt] using h
      | innerFail =>
        simp only [simpleUdpLoop, hc, if_true, hevt]
        exact ih _ _ _ _ _ h
      | interruptLate =>
        have hgoal : st.bytes_sent + u = (st.packets_sent + 1) * u := by rw [h]; ring
        simpa [simpleUdpLoop, hc, hevt] using hgoal
      | ok b c =>
        simp only [simpleUdpLoop, hc, if_true, hevt]
        by_cases hneg : negSleep = true
        · rw [if_pos hneg]
          show st.bytes_sent + u = (st.packets_sent + 1) * u
          rw [h]; ring
        · rw [if_neg hneg]
          exact ih _ _ _ _ _ (by show st.bytes_sent + u = (st.packets_sent + 1) * u; rw [h]; ring)
    · simpa [simpleUdpLoop, hc] using h



/-! ## Claims -/

/-- Claim C1, counterexample: a profile with a negative rate is NOT
rejected before the session loop.  With rate `-1` the stream-transport TCP
generator runs its loop: the session completes normally, traffic is sent,
and the counters are updated (here even twice per iteration, because the
`ValueError` raised by `time.sleep` on the negative interval is caught by
the broad per-iteration handler, which counts the packet again). -/
theorem C1_counterexample :
    (simpleTcp 4 9999 1 (-1) (fun r => if r ≤ 1 then 1 else 5) (fun _ => .ok true true) 2).exit =
        .completed ∧
      (simpleTcp 4 9999 1 (-1) (fun r => if r ≤ 1 then 1 else 5)
          (fun _ => .ok true true) 2).stats.packets_sent = 2 ∧
      (simpleTcp 4 9999 1 (-1) (fun r => if r ≤ 1 then 1 else 5)
          (fun _ => .ok true true) 2).sends ≠ [] := by
  decide

/-- Claim C1 (amended): there is no profile validation; a rate of zero
makes `interval = 1.0 / pps` raise an uncaught `ZeroDivisionError` before
the session loop starts, so no traffic is sent and no statistics counters
are updated — but it is a propagating `ZeroDivisionError`, not a
`ConfigurationError`; and negative rates are not rejected at all: the loop
runs and sends traffic (see the counterexample). -/
theorem C1_zero_rate_error (pktLen payload_size tport : Nat) (duration : Int)
    (clock : Nat → Int) (fevt : Nat → FrameIterEvt) (sevt : Nat → StreamIterEvt) (fuel : Nat) :
    scapyHttp pktLen duration 0 clock fevt fuel = zeroDivResult ∧
      simpleTcp payload_size tport duration 0 clock sevt fuel = zeroDivResult ∧
      zeroDivResult.stats = ⟨0, 0⟩ ∧ zeroDivResult.sends = [] ∧
      zeroDivResult.exit = .pyError "ZeroDivisionError" := by
  exact ⟨by simp [scapyHttp], by simp [simpleTcp], rfl, rfl, rfl⟩

/-- Claim C2, counterexample: in the frame-transport generator a send
failure is not handled per-iteration.  In a session that would complete 4
sends, a failing `send` on the very first iteration aborts the whole
session: zero packets counted, the exception propagates out, and the final
snapshot is skipped. -/
theorem C2_counterexample :
    (scapyHttp 77 5 1 stdClock (fun j => if j = 0 then .sendFail else .ok) 6).exit =
        .pyError "Exception" ∧
      (scapyHttp 77 5 1 stdClock (fun j => if j = 0 then .sendFail else .ok) 6).stats.packets_sent = 0 ∧
      (scapyHttp 77 5 1 stdClock (fun j => if j = 0 then .sendFail else .ok) 6).finalSnap = none ∧
      (scapyHttp 77 5 1 stdClock (fun _ => .ok) 6).stats.packets_sent = 4 ∧
      (scapyHttp 77 5 1 stdClock (fun _ => .ok) 6).exit = .completed := by
  decide

/-- Claim C2 (amended): in the frame-transport session loops only
`KeyboardInterrupt` is caught, so a send failure raised by the underlying
`send` call is NOT logged-and-continued: it aborts the whole session at
that iteration with the state as it was, no further iterations, and no
final snapshot (the exception propagates out of the generator). -/
theorem C2_send_failure_aborts (pktLen : Nat) (negSleep : Bool) (start endTime : Int)
    (clock : Nat → Int) (evt : Nat → FrameIterEvt) (fuel k port : Nat) (st : Stats)
    (sends : List SendEvt) (sl ps : Nat)
    (hc : clock (k+1) < endTime) (he : evt k = .sendFail) :
    scapyHttpLoop pktLen negSleep start endTime clock evt (fuel+1) k st sends sl ps =
        ⟨st, sends, none, sl, ps, .pyError "Exception"⟩ ∧
      scapySynLoop pktLen negSleep start endTime clock evt (fuel+1) k port st sends sl ps =
        ⟨st, sends, none, sl, ps, .pyError "Exception"⟩ := by
  constructor
  · simp [scapyHttpLoop, hc, he]
  · simp [scapySynLoop, hc, he]

/-- Witness for C2 (amended) at a concrete input. -/
theorem C2_send_failure_aborts_witness :
    scapyHttpLoop 77 false 1 6 stdClock (fun _ => .sendFail) 3 0 ⟨0, 0⟩ [] 0 0 =
        ⟨⟨0, 0⟩, [], none, 0, 0, .pyError "Exception"⟩ ∧
      scapySynLoop 77 false 1 6 stdClock (fun _ => .sendFail) 3 0 80 ⟨0, 0⟩ [] 0 0 =
        ⟨⟨0, 0⟩, [], none, 0, 0, .pyError "Exception"⟩ :=
  C2_send_failure_aborts 77 false 1 6 stdClock (fun _ => .sendFail) 2 0 80 ⟨0, 0⟩ [] 0 0
    (by decide) rfl

/-- Claim C3: the TCP-SYN destination-port sequence starts at 80,
increments by exactly 1 after each send, wraps from 65535 back to 1, and
is never 0; every run of the SYN-flood generator sends to exactly the
ports `synPort 0, synPort 1, ...` in order, and the concrete 3-send
session observes ports 80, 81, 82. -/
theorem C3_syn_port_sequence :
    synPort 0 = 80 ∧
      (∀ n, synPort (n+1) = if synPort n = 65535 then 1 else synPort n + 1) ∧
      (∀ n, synPort n ≠ 0) ∧
      (∀ pktLen duration pps clock evt fuel, ∃ m,
        (scapySyn pktLen duration pps clock evt fuel).sends =
          (List.range m).map (fun j => ⟨.tcpSyn, synPort j, 0, pktLen⟩)) ∧
      (scapySyn 40 4 1 stdClock (fun _ => .ok) 4).sends.map SendEvt.dport = [80, 81, 82] := by
  refine ⟨rfl, synPort_step, fun n => ?_, fun pktLen duration pps clock evt fuel => ?_, by decide⟩
  · have := (synPort_bounds n).1
    omega
  · by_cases hp : pps = 0
    · exact ⟨0, by simp [scapySyn, hp, zeroDivResult]⟩
    · have h := scapySynLoop_sends pktLen (decide (pps < 0)) (clock 0) (clock 0 + duration)
        clock evt fuel 0 0 ⟨0, 0⟩ 0 0
      simpa [scapySyn, hp, synPort] using h

/-- Claim C4, counterexample: for the HTTP-POST stream session the
invariant `bytes_sent = packets_sent * payload_size` fails: with
configured payload size 8 and target `10.0.0.1`, after 2 counted sends
`bytes_sent` is 162 — each send adds the length of the whole HTTP request
(73-byte header plus 8-byte body), not the configured payload size. -/
theorem C4_counterexample :
    (simpleHttp "10.0.0.1" 8 80 3 1 stdClock (fun _ => .ok true true) 3).stats.packets_sent = 2 ∧
      (simpleHttp "10.0.0.1" 8 80 3 1 stdClock (fun _ => .ok true true) 3).stats.bytes_sent = 162 ∧
      (simpleHttp "10.0.0.1" 8 80 3 1 stdClock (fun _ => .ok true true) 3).stats.bytes_sent ≠
        (simpleHttp "10.0.0.1" 8 80 3 1 stdClock (fun _ => .ok true true) 3).stats.packets_sent * 8 := by
  decide

/-- Claim C4 (amended): at every point of every stream-transport session,
`bytes_sent = packets_sent * unit_length`, where the unit length is the
configured payload size for UDP and for the TCP flood, but for HTTP-POST
it is the byte length of the whole HTTP request (header plus `X`-filled
body), not the configured payload size alone. -/
theorem C4_bytes_eq_packets_times_unit (ip : String) (payload_size tport : Nat)
    (duration pps : Int) (clock : Nat → Int) (evt : Nat → StreamIterEvt) (fuel : Nat) :
    ((simpleUdp payload_size tport duration pps clock evt fuel).stats.bytes_sent =
        (simpleUdp payload_size tport duration pps clock evt fuel).stats.packets_sent * payload_size) ∧
      ((simpleTcp payload_size tport duration pps clock evt fuel).stats.bytes_sent =
        (simpleTcp payload_size tport duration pps clock evt fuel).stats.packets_sent * payload_size) ∧
      ((simpleHttp ip payload_size tport duration pps clock evt fuel).stats.bytes_sent =
        (simpleHttp ip payload_size tport duration pps clock evt fuel).stats.packets_sent *
          httpRequestLen ip payload_size) := by
  refine ⟨?_, ?_, ?_⟩
  · by_cases hp : pps = 0
    · simp [simpleUdp, hp, zeroDivResult]
    · have h := simpleUdpLoop_inv tport payload_size (decide (pps < 0)) (clock 0)
        (clock 0 + duration) clock evt fuel 0 ⟨0, 0⟩ [] 0 0 (by simp)
      simpa [simpleUdp, hp] using h
  · by_cases hp : pps = 0
    · simp [simpleTcp, hp, zeroDivResult]
    · have h := simpleStreamLoop_inv .tcp tport payload_size (decide (pps < 0)) (clock 0)
        (clock 0 + duration) clock evt fuel 0 ⟨0, 0⟩ [] 0 0 (by simp)
      simpa [simpleTcp, hp] using h
  · by_cases hp : pps = 0
    · simp [simpleHttp, hp, zeroDivResult]
    · have h := simpleStreamLoop_inv .http tport (httpRequestLen ip payload_size)
        (decide (pps < 0)) (clock 0) (clock 0 + duration) clock evt fuel 0 ⟨0, 0⟩ [] 0 0 (by simp)
      simpa [simpleHttp, hp] using h


/-- Claim C5: in the stream-transport TCP and HTTP loops the outcome of the
non-blocking connect and of the write is not distinguished: a run with any
pattern `b`/`c` of connect/sendall success is identical to the run in which
both always succeed, and a session that performs `N` iterations counts
exactly `N` packets and `N` times the unit byte length (the payload for
TCP, the whole request for HTTP) regardless of those outcomes. -/
theorem C5_count_on_attempt (ip : String) (payload_size tport : Nat) (duration pps : Int)
    (clock : Nat → Int) (b c : Nat → Bool) (fuel N : Nat) :
    (simpleTcp payload_size tport duration pps clock (fun k => .ok (b k) (c k)) fuel =
        simpleTcp payload_size tport duration pps clock (fun _ => .ok true true) fuel) ∧
      (simpleHttp ip payload_size tport duration pps clock (fun k => .ok (b k) (c k)) fuel =
        simpleHttp ip payload_size tport duration pps clock (fun _ => .ok true true) fuel) ∧
      ((simpleTcp payload_size tport ((N : Int)+1) 1 stdClock
          (fun k => .ok (b k) (c k)) (N+1)).stats = ⟨N, N * payload_size⟩) ∧
      ((simpleTcp payload_size tport ((N : Int)+1) 1 stdClock
          (fun k => .ok (b k) (c k)) (N+1)).exit = .completed) ∧
      ((simpleHttp ip payload_size tport ((N : Int)+1) 1 stdClock
          (fun k => .ok (b k) (c k)) (N+1)).stats = ⟨N, N * httpRequestLen ip payload_size⟩) := by
  have hirrel : ∀ (proto : Proto) (u : Nat) (negSleep : Bool) (start endTime : Int),
      ∀ fl k st sends sl ps,
      simpleStreamLoop proto tport u negSleep start endTime clock (fun k => .ok (b k) (c k))
          fl k st sends sl ps =
        simpleStreamLoop proto tport u negSleep start endTime clock (fun _ => .ok true true)
          fl k st sends sl ps := by
    intro proto u negSleep start endTime
    exact simpleStreamLoop_evt_ok_irrel proto tport u negSleep start endTime clock _ _
      (fun j => rfl) (fun j => rfl)
  have hrun : ∀ (proto : Proto) (u : Nat),
      (simpleStreamLoop proto tport u false 1 (1 + ((N : Int)+1)) stdClock
          (fun k => .ok (b k) (c k)) (N+1) 0 ⟨0, 0⟩ [] 0 0).stats = ⟨N, N * u⟩ ∧
        (simpleStreamLoop proto tport u false 1 (1 + ((N : Int)+1)) stdClock
          (fun k => .ok (b k) (c k)) (N+1) 0 ⟨0, 0⟩ [] 0 0).exit = .completed := by
    intro proto u
    obtain ⟨ps2, heq⟩ := simpleStreamLoop_run_ok proto tport u 1 (1 + ((N : Int)+1)) stdClock
      (fun k => .ok (b k) (c k)) N 1 0 ⟨0, 0⟩ [] 0 0
      (fun j hj => by simp only [stdClock]; push_cast; omega)
      (fun j hj => rfl)
    rw [heq]
    have hstop : ¬ stdClock (N + 1) < 1 + ((N : Int)+1) := by
      simp only [stdClock]; push_cast; omega
    constructor
    · simp [simpleStreamLoop, hstop]
    · simp [simpleStreamLoop, hstop]
  refine ⟨?_, ?_, ?_, ?_, ?_⟩
  · by_cases hp : pps = 0
    · simp [simpleTcp, hp]
    · simp only [simpleTcp, hp, if_false]
      exact hirrel _ _ _ _ _ _ _ _ _ _ _
  · by_cases hp : pps = 0
    · simp [simpleHttp, hp]
    · simp only [simpleHttp, hp, if_false]
      exact hirrel _ _ _ _ _ _ _ _ _ _ _
  · have h := (hrun .tcp payload_size).1
    have hw : simpleTcp payload_size tport ((N : Int)+1) 1 stdClock
        (fun k => .ok (b k) (c k)) (N+1) =
        simpleStreamLoop .tcp tport payload_size false 1 (1 + ((N : Int)+1)) stdClock
          (fun k => .ok (b k) (c k)) (N+1) 0 ⟨0, 0⟩ [] 0 0 := by
      simp [simpleTcp, stdClock]
    rw [hw, h]
  · have h := (hrun .tcp payload_size).2
    have hw : simpleTcp payload_size tport ((N : Int)+1) 1 stdClock
        (fun k => .ok (b k) (c k)) (N+1) =
        simpleStreamLoop .tcp tport payload_size false 1 (1 + ((N : Int)+1)) stdClock
          (fun k => .ok (b k) (c k)) (N+1) 0 ⟨0, 0⟩ [] 0 0 := by
      simp [simpleTcp, stdClock]
    rw [hw, h]
  · have h := (hrun .http (httpRequestLen ip payload_size)).1
    have hw : simpleHttp ip payload_size tport ((N : Int)+1) 1 stdClock
        (fun k => .ok (b k) (c k)) (N+1) =
        simpleStreamLoop .http tport (httpRequestLen ip payload_size) false 1
          (1 + ((N : Int)+1)) stdClock (fun k => .ok (b k) (c k)) (N+1) 0 ⟨0, 0⟩ [] 0 0 := by
      simp [simpleHttp, stdClock]
    rw [hw, h]

/-- Claim C6, counterexample: in the stream-transport mixed generator the
rotation index does NOT advance once per loop iteration: when the first
`sendto` raises, the attempt is counted but `i` is not advanced, so the
session counts 2 packets whose protocols are [udp, udp], while the claimed
law `rotation[(N-1) mod 2]` predicts the 2nd sent packet to be tcp. -/
theorem C6_counterexample :
    (simpleMixed 4 5555 3 1 stdClock
        (fun j => if j = 0 then .innerFail else .ok true true) 3).stats.packets_sent = 2 ∧
      (simpleMixed 4 5555 3 1 stdClock
          (fun j => if j = 0 then .innerFail else .ok true true) 3).sends.map SendEvt.proto =
        [.udp, .udp] ∧
      streamRotation.getD ((2 - 1) % 2) .udp = .tcp ∧
      (simpleMixed 4 5555 3 1 stdClock
          (fun j => if j = 0 then .innerFail else .ok true true) 3).sends.map SendEvt.proto ≠
        [.udp, .tcp] := by
  decide

/-- Claim C6 (amended): the frame-transport mixed generator cycles the
fixed list [http, dns, icmp] with the rotation index advancing exactly
once per iteration, so unconditionally its `n`-th (0-based) sent packet is
slot `n % 3`; the stream-transport mixed generator cycles [udp, tcp] the
same way only in sessions whose send attempts do not fail: a failed
attempt is counted without advancing the rotation index (see the
counterexample), breaking the correspondence for counted packets. -/
theorem C6_mixed_rotation (hlen dlen ilen payload_size tport : Nat) (duration pps : Int)
    (clock : Nat → Int) (fevt : Nat → FrameIterEvt) (b c : Nat → Bool)
    (fuel ppsN : Nat) :
    (∃ m, (scapyMixed hlen dlen ilen duration pps clock fevt fuel).sends =
        (List.range m).map (frameMixedEvt hlen dlen ilen)) ∧
      (∀ n, (frameMixedEvt hlen dlen ilen n).proto = frameRotation.getD (n % 3) .http) ∧
      (∃ m, (simpleMixed payload_size tport duration ((ppsN : Int)+1) clock
          (fun k => .ok (b k) (c k)) fuel).sends =
        (List.range m).map (streamMixedEvt tport payload_size)) ∧
      (∀ n, (streamMixedEvt tport payload_size n).proto = streamRotation.getD (n % 2) .udp) := by
  refine ⟨?_, fun n => ?_, ?_, fun n => rfl⟩
  · by_cases hp : pps = 0
    · exact ⟨0, by simp [scapyMixed, hp, zeroDivResult]⟩
    · have h := scapyMixedLoop_sends hlen dlen ilen (decide (pps < 0)) (clock 0)
        (clock 0 + duration) clock fevt fuel 0 0 ⟨0, 0⟩ 0 0
      simpa [scapyMixed, hp] using h
  · have h3 : n % 3 = 0 ∨ n % 3 = 1 ∨ n % 3 = 2 := by omega
    rcases h3 with h3 | h3 | h3 <;> simp [frameMixedEvt, frameRotation, h3]
  · have hp : ((ppsN : Int)+1) ≠ 0 := by positivity
    have hneg : (decide (((ppsN : Int)+1) < 0)) = false := by
      simp only [decide_eq_false_iff_not, not_lt]
      positivity
    have h := simpleMixedLoop_sends_ok tport payload_size (clock 0)
      (clock 0 + duration) clock (fun k => .ok (b k) (c k)) (fun j => rfl)
      fuel 0 0 ⟨0, 0⟩ 0 0
    simpa [simpleMixed, hp, hneg] using h


/-- Claim C7: whenever a session exits by normal completion or by
cancellation, the final statistics snapshot is emitted exactly once, with
the statistics as counted (shown for the stream UDP generator and the
frame HTTP generator); concretely, cancelling after K sends yields a final
snapshot reporting `packets_sent = K` and a clean `cancelled` exit, not an
unhandled error. -/
theorem C7_final_snapshot (payload_size tport pktLen : Nat) (duration pps : Int)
    (clock : Nat → Int) (fevt : Nat → FrameIterEvt) (sevt : Nat → StreamIterEvt)
    (fuel K : Nat) (hstart : clock 0 ≠ 0) :
    ((simpleUdp payload_size tport duration pps clock sevt fuel).exit = .completed ∨
        (simpleUdp payload_size tport duration pps clock sevt fuel).exit = .cancelled →
      (simpleUdp payload_size tport duration pps clock sevt fuel).finalSnap =
        some (simpleUdp payload_size tport duration pps clock sevt fuel).stats) ∧
      ((scapyHttp pktLen duration pps clock fevt fuel).exit = .completed ∨
          (scapyHttp pktLen duration pps clock fevt fuel).exit = .cancelled →
        (scapyHttp pktLen duration pps clock fevt fuel).finalSnap =
          some (scapyHttp pktLen duration pps clock fevt fuel).stats) ∧
      ((simpleUdp payload_size tport ((K : Int)+2) 1 stdClock
          (fun j => if j < K then .ok true true else .interruptEarly) (K+1)).finalSnap =
        some ⟨K, K * payload_size⟩) ∧
      ((simpleUdp payload_size tport ((K : Int)+2) 1 stdClock
          (fun j => if j < K then .ok true true else .interruptEarly) (K+1)).exit = .cancelled) ∧
      ((scapyHttp pktLen ((K : Int)+2) 1 stdClock
          (fun j => if j < K then .ok else .interruptEarly) (K+1)).finalSnap =
        some ⟨K, K * pktLen⟩) ∧
      ((scapyHttp pktLen ((K : Int)+2) 1 stdClock
          (fun j => if j < K then .ok else .interruptEarly) (K+1)).exit = .cancelled) := by
  have hcK : stdClock (K + 1) < 1 + ((K : Int)+2) := by
    simp only [stdClock]; push_cast; omega
  have hudp : (simpleUdp payload_size tport ((K : Int)+2) 1 stdClock
        (fun j => if j < K then .ok true true else .interruptEarly) (K+1)).finalSnap =
        some ⟨K, K * payload_size⟩ ∧
      (simpleUdp payload_size tport ((K : Int)+2) 1 stdClock
        (fun j => if j < K then .ok true true else .interruptEarly) (K+1)).exit = .cancelled := by
    obtain ⟨ps2, heq⟩ := simpleUdpLoop_run_ok tport payload_size 1 (1 + ((K : Int)+2)) stdClock
      (fun j => if j < K then .ok true true else .interruptEarly) K 1 0 ⟨0, 0⟩ [] 0 0
      (fun j hj => by simp only [stdClock]; push_cast; omega)
      (fun j hj => by simp [hj, StreamIterEvt.isOk])
    have hw : simpleUdp payload_size tport ((K : Int)+2) 1 stdClock
        (fun j => if j < K then .ok true true else .interruptEarly) (K+1) =
        simpleUdpLoop tport payload_size false 1 (1 + ((K : Int)+2)) stdClock
          (fun j => if j < K then .ok true true else .interruptEarly) (K+1) 0 ⟨0, 0⟩ [] 0 0 := by
      simp [simpleUdp, stdClock]
    rw [hw, heq]
    constructor
    · simp [simpleUdpLoop, hcK, printStats]
    · simp [simpleUdpLoop, hcK]
  have hhttp : (scapyHttp pktLen ((K : Int)+2) 1 stdClock
        (fun j => if j < K then .ok else .interruptEarly) (K+1)).finalSnap =
        some ⟨K, K * pktLen⟩ ∧
      (scapyHttp pktLen ((K : Int)+2) 1 stdClock
        (fun j => if j < K then .ok else .interruptEarly) (K+1)).exit = .cancelled := by
    obtain ⟨ps2, heq⟩ := scapyHttpLoop_run_ok pktLen 1 (1 + ((K : Int)+2)) stdClock
      (fun j => if j < K then .ok else .interruptEarly) K 1 0 ⟨0, 0⟩ [] 0 0
      (fun j hj => by simp only [stdClock]; push_cast; omega)
      (fun j hj => by simp [hj])
    have hw : scapyHttp pktLen ((K : Int)+2) 1 stdClock
        (fun j => if j < K then .ok else .interruptEarly) (K+1) =
        scapyHttpLoop pktLen false 1 (1 + ((K : Int)+2)) stdClock
          (fun j => if j < K then .ok else .interruptEarly) (K+1) 0 ⟨0, 0⟩ [] 0 0 := by
      simp [scapyHttp, stdClock]
    rw [hw, heq]
    constructor
    · simp [scapyHttpLoop, hcK, printStats]
    · simp [scapyHttpLoop, hcK]
  refine ⟨?_, ?_, hudp.1, hudp.2, hhttp.1, hhttp.2⟩
  · by_cases hp : pps = 0
    · simp [simpleUdp, hp, zeroDivResult]
    · have h := simpleUdpLoop_finalSnap tport payload_size (decide (pps < 0)) (clock 0)
        (clock 0 + duration) clock sevt hstart fuel 0 ⟨0, 0⟩ [] 0 0
      simpa [simpleUdp, hp] using h
  · by_cases hp : pps = 0
    · simp [scapyHttp, hp, zeroDivResult]
    · have h := scapyHttpLoop_finalSnap pktLen (decide (pps < 0)) (clock 0)
        (clock 0 + duration) clock fevt hstart fuel 0 ⟨0, 0⟩ [] 0 0
      simpa [scapyHttp, hp] using h

/-- Witness for C7 at a concrete input (K = 2, generic parameters fixed). -/
theorem C7_final_snapshot_witness :
    ((simpleUdp 1024 5555 5 1 stdClock (fun _ => .ok true true) 7).exit = .completed ∨
        (simpleUdp 1024 5555 5 1 stdClock (fun _ => .ok true true) 7).exit = .cancelled →
      (simpleUdp 1024 5555 5 1 stdClock (fun _ => .ok true true) 7).finalSnap =
        some (simpleUdp 1024 5555 5 1 stdClock (fun _ => .ok true true) 7).stats) ∧
      ((scapyHttp 77 5 1 stdClock (fun _ => .ok) 7).exit = .completed ∨
          (scapyHttp 77 5 1 stdClock (fun _ => .ok) 7).exit = .cancelled →
        (scapyHttp 77 5 1 stdClock (fun _ => .ok) 7).finalSnap =
          some (scapyHttp 77 5 1 stdClock (fun _ => .ok) 7).stats) ∧
      ((simpleUdp 1024 5555 ((2 : Int)+2) 1 stdClock
          (fun j => if j < 2 then .ok true true else .interruptEarly) (2+1)).finalSnap =
        some ⟨2, 2 * 1024⟩) ∧
      ((simpleUdp 1024 5555 ((2 : Int)+2) 1 stdClock
          (fun j => if j < 2 then .ok true true else .interruptEarly) (2+1)).exit = .cancelled) ∧
      ((scapyHttp 77 ((2 : Int)+2) 1 stdClock
          (fun j => if j < 2 then .ok else .interruptEarly) (2+1)).finalSnap =
        some ⟨2, 2 * 77⟩) ∧
      ((scapyHttp 77 ((2 : Int)+2) 1 stdClock
          (fun j => if j < 2 then .ok else .interruptEarly) (2+1)).exit = .cancelled) := by
  have h := C7_final_snapshot 1024 5555 77 5 1 stdClock (fun _ => .ok)
    (fun _ => .ok true true) 7 2 (by decide)
  exact h

/-- Claim C8: in an ICMP session the sequence numbers of the sent echo
messages are exactly 0, 1, 2, ... in order, with no gaps and no
repetitions: every run's send list is the map of the identity sequence
number over an initial range, so the `N`-th (1-based) sent message carries
sequence number `N-1`; concretely, a 3-send session observes 0, 1, 2. -/
theorem C8_icmp_seq_numbers :
    (∀ l2Len l3Len useL2 duration pps clock evt fuel, ∃ m,
        (scapyIcmp l2Len l3Len useL2 duration pps clock evt fuel).sends =
          (List.range m).map (fun j => ⟨.icmp, 0, j, if useL2 then l2Len else l3Len⟩)) ∧
      (scapyIcmp 42 28 false 4 1 stdClock (fun _ => .ok) 4).sends.map SendEvt.seq = [0, 1, 2] := by
  refine ⟨fun l2Len l3Len useL2 duration pps clock evt fuel => ?_, by decide⟩
  by_cases hp : pps = 0
  · exact ⟨0, by simp [scapyIcmp, hp, zeroDivResult]⟩
  · have h := scapyIcmpLoop_sends l2Len l3Len useL2 (decide (pps < 0)) (clock 0)
      (clock 0 + duration) clock evt fuel 0 0 ⟨0, 0⟩ 0 0
    simpa [scapyIcmp, hp] using h

/-- Claim C9: with duration 0 (and any positive rate) the send loop body
executes zero times provided the clock does not run backwards: no
transport call is made, both counters are 0, and the final snapshot is
emitted reporting empty statistics (shown for the frame HTTP generator
and the stream UDP generator). -/
theorem C9_zero_duration (pktLen payload_size tport : Nat) (pps : Int)
    (clock : Nat → Int) (fevt : Nat → FrameIterEvt) (sevt : Nat → StreamIterEvt) (fuel : Nat)
    (hmono : clock 0 ≤ clock 1) (hstart : clock 0 ≠ 0) (hpps : 0 < pps) :
    scapyHttp pktLen 0 pps clock fevt (fuel+1) =
        ⟨⟨0, 0⟩, [], some ⟨0, 0⟩, 0, 0, .completed⟩ ∧
      simpleUdp payload_size tport 0 pps clock sevt (fuel+1) =
        ⟨⟨0, 0⟩, [], some ⟨0, 0⟩, 0, 0, .completed⟩ := by
  have hp : pps ≠ 0 := by omega
  have hc : ¬ clock 1 < clock 0 := not_lt.mpr hmono
  constructor
  · simp [scapyHttp, hp, scapyHttpLoop, hc, printStats, hstart]
  · simp [simpleUdp, hp, simpleUdpLoop, hc, printStats, hstart]

/-- Witness for C9 at a concrete input. -/
theorem C9_zero_duration_witness :
    scapyHttp 77 0 1 (fun _ => 1) (fun _ => .ok) 1 =
        ⟨⟨0, 0⟩, [], some ⟨0, 0⟩, 0, 0, .completed⟩ ∧
      simpleUdp 1024 5555 0 1 (fun _ => 1) (fun _ => .ok true true) 1 =
        ⟨⟨0, 0⟩, [], some ⟨0, 0⟩, 0, 0, .completed⟩ :=
  C9_zero_duration 77 1024 5555 1 (fun _ => 1) (fun _ => .ok) (fun _ => .ok true true) 0
    (by decide) (by decide) (by decide)

/-- Claim C10 (implicit): in the stream UDP loop, an iteration whose
`sendto` raises `OSError` leaves the statistics state, the send list and
the sleep count unchanged and continues with the next iteration — the
failed attempt is not counted — whereas the same per-iteration failure in
the TCP/HTTP stream loop IS counted (packet and bytes incremented). -/
theorem C10_udp_oserror_not_counted (proto : Proto) (tport u : Nat) (negSleep : Bool)
    (start endTime : Int) (clock : Nat → Int) (evt : Nat → StreamIterEvt)
    (fuel k : Nat) (st : Stats) (sends : List SendEvt) (sl ps : Nat)
    (hc : clock (k+1) < endTime) (he : evt k = .innerFail) :
    simpleUdpLoop tport u negSleep start endTime clock evt (fuel+1) k st sends sl ps =
        simpleUdpLoop tport u negSleep start endTime clock evt fuel (k+1) st sends sl ps ∧
      simpleStreamLoop proto tport u negSleep start endTime clock evt (fuel+1) k st sends sl ps =
        simpleStreamLoop proto tport u negSleep start endTime clock evt fuel (k+1)
          ⟨st.packets_sent + 1, st.bytes_sent + u⟩ (sends ++ [⟨proto, tport, 0, u⟩]) sl ps := by
  constructor
  · simp [simpleUdpLoop, hc, he]
  · simp [simpleStreamLoop, hc, he]

/-- Witness for C10 at a concrete input. -/
theorem C10_udp_oserror_not_counted_witness :
    simpleUdpLoop 5555 1024 false 1 6 stdClock (fun _ => .innerFail) 3 0 ⟨0, 0⟩ [] 0 0 =
        simpleUdpLoop 5555 1024 false 1 6 stdClock (fun _ => .innerFail) 2 1 ⟨0, 0⟩ [] 0 0 ∧
      simpleStreamLoop .tcp 5555 1024 false 1 6 stdClock (fun _ => .innerFail) 3 0 ⟨0, 0⟩ [] 0 0 =
        simpleStreamLoop .tcp 5555 1024 false 1 6 stdClock (fun _ => .innerFail) 2 1
          ⟨1, 1024⟩ [⟨.tcp, 5555, 0, 1024⟩] 0 0 :=
  C10_udp_oserror_not_counted .tcp 5555 1024 false 1 6 stdClock (fun _ => .innerFail) 2 0
    ⟨0, 0⟩ [] 0 0 (by decide) rfl
